import Mathlib

/-!
Shallow embedding of the repository py-geospatial-2020: two Jupyter
notebooks ("Practical 2", the GeoPandas introduction, here called P2, and
"Practical 7 Interactive Maps", here called P7).  The notebooks contain no
classes and a single function definition (style_function); all other code
cells are sequences of direct calls into geopandas, pandas, shapely,
folium, folium.plugins and matplotlib.

The embedding has two levels:
1. an operation table (`allOps`) and an entity table (`entities`)
   transcribing, cell by cell, every operation the notebook code performs
   and every value the notebook code binds to a name, each tagged with the
   library that implements it; and
2. executable Lean functions for the pieces of behaviour the claims are
   about: `style_function` (with Python list-indexing semantics, including
   negative indices), `points_from_xy` and the Point list comprehension,
   and the GeoDataFrame constructor (the latter two modelled from the
   notebook prose, since geopandas itself is not part of the repository).
-/

namespace GeoNB

/-- Libraries (and the two non-library implementers) that can perform an
operation appearing in the notebooks. -/
inductive Lib
  | geopandas
  | pandas
  | shapely
  | folium
  | foliumPlugins
  | matplotlib
  | pyBuiltin
  | repoCode
  deriving DecidableEq

/-- Categories of the operations appearing in the notebooks' code cells. -/
inductive OpCategory
  | moduleImport
  | fileReading
  | reprojection
  | pointConstruction
  | geometryConstruction
  | markerClustering
  | heatmapKDE
  | choroplethColorBinning
  | mapConstruction
  | layerAddition
  | tableTransform
  | attributeAccess
  | listConstruction
  | plotting
  | fileWriting
  deriving DecidableEq

/-- File formats appearing in the notebooks' reads and writes. -/
inductive FileFormat
  | zippedShapefile
  | geoPackage
  | csv
  | html
  deriving DecidableEq

/-- The two reading functions used anywhere in the notebooks. -/
inductive ReadFn
  | gpd_read_file
  | pd_read_csv
  deriving DecidableEq

/-- One operation of a notebook code cell.  `src` is the notebook (P2 or
P7), `cell` the code-cell index in source order, `sym` the Python
expression transcribed.  Flags record what the statement syntactically
does: the notebooks contain no try/except, no raise, no threading or
multiprocessing, and no asynchronous event-callback registration (the only
callable handed to a library, style_function, is invoked synchronously by
folium while rendering the GeoJson layer). -/
structure Op where
  src : String
  cell : Nat
  sym : String
  category : OpCategory
  implementedBy : Lib
  reader : Option ReadFn := none
  fileFormat : Option FileFormat := none
  catchesException : Bool := false
  raisesException : Bool := false
  spawnsThreadOrProcess : Bool := false
  registersAsyncCallback : Bool := false
  writesFile : Option String := none
  deriving DecidableEq

/-- P2 cell 5: `gdf = gpd.read_file('zip://../data/cb_2018_us_state_500k.zip')`. -/
def readUsStatesOp : Op :=
  { src := "P2", cell := 5, sym := "gpd.read_file zip shapefile",
    category := .fileReading, implementedBy := .geopandas,
    reader := some .gpd_read_file, fileFormat := some .zippedShapefile }

/-- P2 cell 51: `df = pd.read_csv('../data/ne_cities_10m.csv')`. -/
def readCitiesCsvOp : Op :=
  { src := "P2", cell := 51, sym := "pd.read_csv ne_cities_10m.csv",
    category := .fileReading, implementedBy := .pandas,
    reader := some .pd_read_csv, fileFormat := some .csv }

/-- P7 cell 11: `smkt = gpd.read_file('../data/soton_smkts.gpkg')`. -/
def readSmktOp : Op :=
  { src := "P7", cell := 11, sym := "gpd.read_file soton_smkts.gpkg",
    category := .fileReading, implementedBy := .geopandas,
    reader := some .gpd_read_file, fileFormat := some .geoPackage }

/-- P7 cell 32: `imd = pd.read_csv('../data/IMD2019_Index_of_Multiple_Deprivation.csv')`. -/
def readImdCsvOp : Op :=
  { src := "P7", cell := 32, sym := "pd.read_csv IMD2019 csv",
    category := .fileReading, implementedBy := .pandas,
    reader := some .pd_read_csv, fileFormat := some .csv }

/-- P7 cell 44: `def style_function(feature): ... colors[int(feature['properties']['imd_decile'])-1]`.
The decile-to-colour binning for the GeoJson choropleth layer is computed
by this repository-defined function (int conversion, subtraction, and
indexing into the repository's own ten-element colour list); it contains
no call into an external library. -/
def styleFunctionDefOp : Op :=
  { src := "P7", cell := 44, sym := "def style_function(feature)",
    category := .choroplethColorBinning, implementedBy := .repoCode }

/-- P7 cell 48: `m.save("../test_folium_map.html")`. -/
def saveMapOp : Op :=
  { src := "P7", cell := 48, sym := "m.save test_folium_map.html",
    category := .fileWriting, implementedBy := .folium,
    fileFormat := some .html, writesFile := some "../test_folium_map.html" }

/-- Operation table for P2 (the GeoPandas introduction notebook), one entry
per operation of each code cell, in source order. -/
def practical2Ops : List Op :=
  [ { src := "P2", cell := 1, sym := "import geopandas, pandas",
      category := .moduleImport, implementedBy := .pyBuiltin },
    readUsStatesOp,
    { src := "P2", cell := 7, sym := "type(gdf)",
      category := .attributeAccess, implementedBy := .pyBuiltin },
    { src := "P2", cell := 8, sym := "gdf.shape",
      category := .attributeAccess, implementedBy := .pandas },
    { src := "P2", cell := 9, sym := "gdf.head()",
      category := .attributeAccess, implementedBy := .pandas },
    { src := "P2", cell := 12, sym := "gdf['ALAND'].sum()",
      category := .tableTransform, implementedBy := .pandas },
    { src := "P2", cell := 13, sym := "gdf.area.head()",
      category := .attributeAccess, implementedBy := .geopandas },
    { src := "P2", cell := 16, sym := "gdfSub = gdf[['NAME','GEOID','ALAND']]",
      category := .tableTransform, implementedBy := .pandas },
    { src := "P2", cell := 17, sym := "type(gdfSub)",
      category := .attributeAccess, implementedBy := .pyBuiltin },
    { src := "P2", cell := 18, sym := "gdfSub.head()",
      category := .attributeAccess, implementedBy := .pandas },
    { src := "P2", cell := 20, sym := "nc = gdf[gdf['NAME'] == 'North Carolina']",
      category := .tableTransform, implementedBy := .pandas },
    { src := "P2", cell := 21, sym := "nc.plot()",
      category := .plotting, implementedBy := .geopandas },
    { src := "P2", cell := 23, sym := "gs = gdf.geometry",
      category := .attributeAccess, implementedBy := .geopandas },
    { src := "P2", cell := 24, sym := "type(gs)",
      category := .attributeAccess, implementedBy := .pyBuiltin },
    { src := "P2", cell := 25, sym := "gs.head()",
      category := .attributeAccess, implementedBy := .pandas },
    { src := "P2", cell := 28, sym := "gdf.loc[0, 'geometry']",
      category := .attributeAccess, implementedBy := .pandas },
    { src := "P2", cell := 29, sym := "gdf.geometry[0]",
      category := .attributeAccess, implementedBy := .geopandas },
    { src := "P2", cell := 31, sym := "len(gdf.geometry[0])",
      category := .attributeAccess, implementedBy := .shapely },
    { src := "P2", cell := 32, sym := "gdf.geometry[0][0]",
      category := .attributeAccess, implementedBy := .shapely },
    { src := "P2", cell := 33, sym := "gdf.geometry[0][7]",
      category := .attributeAccess, implementedBy := .shapely },
    { src := "P2", cell := 36, sym := "from shapely.geometry import Point, LineString, Polygon",
      category := .moduleImport, implementedBy := .pyBuiltin },
    { src := "P2", cell := 37, sym := "Point(1, 1), Point(2, 2)",
      category := .pointConstruction, implementedBy := .shapely },
    { src := "P2", cell := 37, sym := "test = gpd.GeoDataFrame(dict literal)",
      category := .tableTransform, implementedBy := .geopandas },
    { src := "P2", cell := 39, sym := "test.rename(columns).set_geometry('shape')",
      category := .tableTransform, implementedBy := .geopandas },
    { src := "P2", cell := 40, sym := "test.geometry",
      category := .attributeAccess, implementedBy := .geopandas },
    { src := "P2", cell := 42, sym := "test.geometry.name",
      category := .attributeAccess, implementedBy := .geopandas },
    { src := "P2", cell := 44, sym := "type(test)",
      category := .attributeAccess, implementedBy := .pyBuiltin },
    { src := "P2", cell := 46, sym := "poly = Polygon(vertex list)",
      category := .geometryConstruction, implementedBy := .shapely },
    { src := "P2", cell := 47, sym := "ln = LineString(vertex list)",
      category := .geometryConstruction, implementedBy := .shapely },
    readCitiesCsvOp,
    { src := "P2", cell := 52, sym := "df.shape",
      category := .attributeAccess, implementedBy := .pandas },
    { src := "P2", cell := 53, sym := "df.head()",
      category := .attributeAccess, implementedBy := .pandas },
    { src := "P2", cell := 55, sym := "gpd.points_from_xy(df.longitude, df.latitude)",
      category := .pointConstruction, implementedBy := .geopandas },
    { src := "P2", cell := 55, sym := "cities = gpd.GeoDataFrame(df, geometry)",
      category := .tableTransform, implementedBy := .geopandas },
    { src := "P2", cell := 57, sym := "cities.head()",
      category := .attributeAccess, implementedBy := .pandas },
    { src := "P2", cell := 59, sym := "cities.shape",
      category := .attributeAccess, implementedBy := .pandas },
    { src := "P2", cell := 61, sym := "[Point(x, y) for x, y in zip(df.longitude, df.latitude)][0:9]",
      category := .pointConstruction, implementedBy := .shapely } ]

/-- Operation table for P7 (the interactive-maps notebook), one entry per
operation of each code cell, in source order. -/
def practical7Ops : List Op :=
  [ { src := "P7", cell := 2, sym := "import geopandas, folium, matplotlib.pyplot",
      category := .moduleImport, implementedBy := .pyBuiltin },
    { src := "P7", cell := 4, sym := "m = folium.Map(location, zoom_start=15)",
      category := .mapConstruction, implementedBy := .folium },
    { src := "P7", cell := 7, sym := "m = folium.Map(tiles Stamen watercolor)",
      category := .mapConstruction, implementedBy := .folium },
    { src := "P7", cell := 9, sym := "folium.TileLayer('stamentoner').add_to(m)",
      category := .layerAddition, implementedBy := .folium },
    { src := "P7", cell := 9, sym := "folium.LayerControl().add_to(m)",
      category := .layerAddition, implementedBy := .folium },
    readSmktOp,
    { src := "P7", cell := 11, sym := "smkt = smkt.explode()",
      category := .tableTransform, implementedBy := .geopandas },
    { src := "P7", cell := 11, sym := "smkt = smkt.to_crs(4326)",
      category := .reprojection, implementedBy := .geopandas },
    { src := "P7", cell := 11, sym := "smkt.head()",
      category := .attributeAccess, implementedBy := .pandas },
    { src := "P7", cell := 12, sym := "ff = gpd.read_file soton_fastfood.gpkg",
      category := .fileReading, implementedBy := .geopandas,
      reader := some .gpd_read_file, fileFormat := some .geoPackage },
    { src := "P7", cell := 12, sym := "ff = ff.explode()",
      category := .tableTransform, implementedBy := .geopandas },
    { src := "P7", cell := 12, sym := "ff = ff.to_crs(4326)",
      category := .reprojection, implementedBy := .geopandas },
    { src := "P7", cell := 12, sym := "ff.head()",
      category := .attributeAccess, implementedBy := .pandas },
    { src := "P7", cell := 14, sym := "ff_gj = folium.features.GeoJson(ff, name)",
      category := .layerAddition, implementedBy := .folium },
    { src := "P7", cell := 15, sym := "m = folium.Map(control_scale=True)",
      category := .mapConstruction, implementedBy := .folium },
    { src := "P7", cell := 15, sym := "ff_gj.add_to(m)",
      category := .layerAddition, implementedBy := .folium },
    { src := "P7", cell := 15, sym := "folium.LayerControl().add_to(m)",
      category := .layerAddition, implementedBy := .folium },
    { src := "P7", cell := 17, sym := "m = folium.Map(control_scale=True)",
      category := .mapConstruction, implementedBy := .folium },
    { src := "P7", cell := 17, sym := "ff_gj.add_to(m)",
      category := .layerAddition, implementedBy := .folium },
    { src := "P7", cell := 17, sym := "smkt.iterrows()",
      category := .tableTransform, implementedBy := .pandas },
    { src := "P7", cell := 17, sym := "feature['geometry'].y, feature['geometry'].x",
      category := .attributeAccess, implementedBy := .shapely },
    { src := "P7", cell := 17, sym := "folium.map.Marker(coords, folium.Icon(green)).add_to(m)",
      category := .layerAddition, implementedBy := .folium },
    { src := "P7", cell := 19, sym := "from folium.plugins import MarkerCluster",
      category := .moduleImport, implementedBy := .pyBuiltin },
    { src := "P7", cell := 20, sym := "m = folium.Map(control_scale=True)",
      category := .mapConstruction, implementedBy := .folium },
    { src := "P7", cell := 21, sym := "locns = list(zip(ff.geometry.y, ff.geometry.x))",
      category := .listConstruction, implementedBy := .pyBuiltin },
    { src := "P7", cell := 22, sym := "mc = MarkerCluster(locns)",
      category := .markerClustering, implementedBy := .foliumPlugins },
    { src := "P7", cell := 22, sym := "mc.add_to(m)",
      category := .layerAddition, implementedBy := .folium },
    { src := "P7", cell := 26, sym := "from folium.plugins import HeatMap",
      category := .moduleImport, implementedBy := .pyBuiltin },
    { src := "P7", cell := 27, sym := "m = folium.Map(control_scale=True)",
      category := .mapConstruction, implementedBy := .folium },
    { src := "P7", cell := 28, sym := "hm = HeatMap(locns, name)",
      category := .heatmapKDE, implementedBy := .foliumPlugins },
    { src := "P7", cell := 28, sym := "hm.add_to(m)",
      category := .layerAddition, implementedBy := .folium },
    { src := "P7", cell := 28, sym := "folium.LayerControl().add_to(m)",
      category := .layerAddition, implementedBy := .folium },
    { src := "P7", cell := 32, sym := "import pandas",
      category := .moduleImport, implementedBy := .pyBuiltin },
    { src := "P7", cell := 32, sym := "lsoa = gpd.read_file soton_lsoa_distance.gpkg",
      category := .fileReading, implementedBy := .geopandas,
      reader := some .gpd_read_file, fileFormat := some .geoPackage },
    readImdCsvOp,
    { src := "P7", cell := 32, sym := "imd = imd.rename(columns)",
      category := .tableTransform, implementedBy := .pandas },
    { src := "P7", cell := 32, sym := "imd = imd[['lsoa','imd_decile']]",
      category := .tableTransform, implementedBy := .pandas },
    { src := "P7", cell := 33, sym := "imd.head()",
      category := .attributeAccess, implementedBy := .pandas },
    { src := "P7", cell := 34, sym := "lsoa = lsoa.merge(imd, on='lsoa')",
      category := .tableTransform, implementedBy := .pandas },
    { src := "P7", cell := 35, sym := "lsoa.head()",
      category := .attributeAccess, implementedBy := .pandas },
    { src := "P7", cell := 36, sym := "lsoa = lsoa.to_crs(4326)",
      category := .reprojection, implementedBy := .geopandas },
    { src := "P7", cell := 37, sym := "lsoa.plot('imd_decile', categorical, cmap Reds)",
      category := .plotting, implementedBy := .geopandas },
    { src := "P7", cell := 37, sym := "plt.show()",
      category := .plotting, implementedBy := .matplotlib },
    { src := "P7", cell := 40, sym := "m = folium.Map(tiles cartodbpositron)",
      category := .mapConstruction, implementedBy := .folium },
    { src := "P7", cell := 40, sym := "folium.Choropleth(lsoa, fill_color Reds).add_to(m)",
      category := .choroplethColorBinning, implementedBy := .folium },
    { src := "P7", cell := 40, sym := "folium.LayerControl().add_to(m)",
      category := .layerAddition, implementedBy := .folium },
    { src := "P7", cell := 42, sym := "m = folium.Map(tiles cartodbpositron)",
      category := .mapConstruction, implementedBy := .folium },
    { src := "P7", cell := 42, sym := "folium.Choropleth(lsoa, highlight=True).add_to(m)",
      category := .choroplethColorBinning, implementedBy := .folium },
    { src := "P7", cell := 42, sym := "folium.LayerControl().add_to(m)",
      category := .layerAddition, implementedBy := .folium },
    { src := "P7", cell := 44, sym := "m = folium.Map(tiles cartodbpositron)",
      category := .mapConstruction, implementedBy := .folium },
    { src := "P7", cell := 44, sym := "colors = [ten hex strings]",
      category := .listConstruction, implementedBy := .pyBuiltin },
    styleFunctionDefOp,
    { src := "P7", cell := 44, sym := "folium.features.GeoJson(lsoa, style_function).add_to(m)",
      category := .layerAddition, implementedBy := .folium },
    { src := "P7", cell := 44, sym := "folium.LayerControl().add_to(m)",
      category := .layerAddition, implementedBy := .folium },
    { src := "P7", cell := 46, sym := "m = folium.Map(tiles cartodbpositron)",
      category := .mapConstruction, implementedBy := .folium },
    { src := "P7", cell := 46, sym := "choropleth = folium.Choropleth(lsoa, highlight=True).add_to(m)",
      category := .choroplethColorBinning, implementedBy := .folium },
    { src := "P7", cell := 46, sym := "folium.LayerControl().add_to(m)",
      category := .layerAddition, implementedBy := .folium },
    { src := "P7", cell := 46, sym := "choropleth.geojson.add_child(folium.features.GeoJsonTooltip)",
      category := .layerAddition, implementedBy := .folium },
    saveMapOp ]

/-- All operations of the repository, both notebooks in source order. -/
def allOps : List Op := practical2Ops ++ practical7Ops

/-- A library is external to the repository when it is not the
repository's own code (geospatial and mapping libraries, and the Python
builtins the notebooks delegate to directly). -/
def isExternalLib : Lib → Bool
  | .repoCode => false
  | _ => true

/-- Kinds of values the notebook code binds to names. -/
inductive EntityKind
  | dataFrame
  | geoDataFrame
  | geoSeries
  | shapelyGeometry
  | foliumMapOrLayer
  | pyList
  deriving DecidableEq

/-- One named value constructed by the notebook code, with the kind of the
value and the library whose type it is an instance of (Python builtin
lists count as owned by the builtins). -/
structure Entity where
  src : String
  name : String
  kind : EntityKind
  ownedBy : Lib
  deriving DecidableEq

/-- P7 cell 21: `locns`, a plain Python list of (lat, lon) tuples built
with `list` and `zip`; it is neither a DataFrame nor a folium object. -/
def locnsEntity : Entity :=
  { src := "P7", name := "locns", kind := .pyList, ownedBy := .pyBuiltin }

/-- P7 cell 44: `colors`, a plain Python list of ten hex colour strings. -/
def colorsEntity : Entity :=
  { src := "P7", name := "colors", kind := .pyList, ownedBy := .pyBuiltin }

/-- All values bound to names by the notebooks' code cells, in source
order. -/
def entities : List Entity :=
  [ { src := "P2", name := "gdf", kind := .geoDataFrame, ownedBy := .geopandas },
    { src := "P2", name := "gdfSub", kind := .dataFrame, ownedBy := .pandas },
    { src := "P2", name := "nc", kind := .geoDataFrame, ownedBy := .geopandas },
    { src := "P2", name := "gs", kind := .geoSeries, ownedBy := .geopandas },
    { src := "P2", name := "test", kind := .geoDataFrame, ownedBy := .geopandas },
    { src := "P2", name := "poly", kind := .shapelyGeometry, ownedBy := .shapely },
    { src := "P2", name := "ln", kind := .shapelyGeometry, ownedBy := .shapely },
    { src := "P2", name := "df", kind := .dataFrame, ownedBy := .pandas },
    { src := "P2", name := "cities", kind := .geoDataFrame, ownedBy := .geopandas },
    { src := "P7", name := "m", kind := .foliumMapOrLayer, ownedBy := .folium },
    { src := "P7", name := "smkt", kind := .geoDataFrame, ownedBy := .geopandas },
    { src := "P7", name := "ff", kind := .geoDataFrame, ownedBy := .geopandas },
    { src := "P7", name := "ff_gj", kind := .foliumMapOrLayer, ownedBy := .folium },
    { src := "P7", name := "marker", kind := .foliumMapOrLayer, ownedBy := .folium },
    locnsEntity,
    { src := "P7", name := "mc", kind := .foliumMapOrLayer, ownedBy := .foliumPlugins },
    { src := "P7", name := "hm", kind := .foliumMapOrLayer, ownedBy := .foliumPlugins },
    { src := "P7", name := "lsoa", kind := .geoDataFrame, ownedBy := .geopandas },
    { src := "P7", name := "imd", kind := .dataFrame, ownedBy := .pandas },
    colorsEntity,
    { src := "P7", name := "choropleth", kind := .foliumMapOrLayer, ownedBy := .folium } ]

/-- Names of classes defined by the repository's code: the notebooks
contain no class statement. -/
def repoClassDefs : List String := []

/-- A shapely Point, carrying an x and a y coordinate. -/
structure ShapelyPoint (α : Type) where
  x : α
  y : α
  deriving DecidableEq

/-- The list comprehension of P2 cell 61, `[Point(x, y) for x, y in
zip(xs, ys)]`: zip the two coordinate sequences (Python zip truncates at
the shorter sequence) and build one Point per pair. -/
def pointsComprehension (xs ys : List ℚ) : List (ShapelyPoint ℚ) :=
  (xs.zip ys).map (fun p => ShapelyPoint.mk p.1 p.2)

/-- Modelled from the spec: `geopandas.points_from_xy` is geopandas
library code, not part of this repository; the P2 notebook documents it as
a wrapper producing one shapely Point per aligned coordinate pair.  It is
modelled here as the direct simultaneous recursion over the two
coordinate sequences. -/
def points_from_xy : List ℚ → List ℚ → List (ShapelyPoint ℚ)
  | x :: xs, y :: ys => ShapelyPoint.mk x y :: points_from_xy xs ys
  | _, _ => []

/-- Values a DataFrame cell can hold in this embedding. -/
inductive PyVal
  | num (q : ℚ)
  | str (s : String)
  | geom (p : ShapelyPoint ℚ)
  deriving DecidableEq

/-- A (Geo)DataFrame: a list of column names and a list of rows, each row
a list of cell values in column order. -/
structure DataFrame where
  cols : List String
  rows : List (List PyVal)
  deriving DecidableEq

/-- The (rows, columns) shape of a DataFrame, as reported by `.shape`. -/
def DataFrame.shape (df : DataFrame) : Nat × Nat :=
  (df.rows.length, df.cols.length)

/-- Modelled from the spec: the `gpd.GeoDataFrame(df, geometry=...)`
constructor is geopandas library code, not part of this repository; the P2
notebook documents it as keeping the original attribute table and adding
one more column called geometry holding the supplied geometry sequence. -/
def gpd_GeoDataFrame (df : DataFrame) (geoms : List (ShapelyPoint ℚ)) : DataFrame :=
  { cols := df.cols ++ ["geometry"],
    rows := List.zipWith (fun r g => r ++ [PyVal.geom g]) df.rows geoms }

/-- The ten-element colour list of P7 cell 44. -/
def colors : List String :=
  [ "#a6cee3", "#1f78b4", "#b2df8a", "#33a02c", "#fb9a99",
    "#e31a1c", "#fdbf6f", "#ff7f00", "#cab2d6", "#6a3d9a" ]

/-- Python list indexing semantics: an index i with 0 <= i < len reads
position i, an index with -len <= i < 0 reads position len + i, and any
other index raises IndexError (modelled as none). -/
def pyIndex (l : List String) (i : Int) : Option String :=
  let n : Int := l.length
  let j : Int := if i < 0 then i + n else i
  if 0 ≤ j ∧ j < n then l.get? j.toNat else none

/-- The style dict returned by style_function in P7 cell 44. -/
structure StyleDict where
  fillOpacity : ℚ
  weight : ℚ
  color : String
  fillColor : String
  deriving DecidableEq

/-- The repository-defined `style_function` of P7 cell 44, on a feature
whose imd_decile property converts to the integer `imd_decile`: it
returns the dict with fillOpacity 0.7, weight 0, color black, and
fillColor `colors[imd_decile - 1]` under Python indexing; `none` models a
raised IndexError. -/
def style_function (imd_decile : Int) : Option StyleDict :=
  (pyIndex colors (imd_decile - 1)).map
    (fun c => { fillOpacity := 7/10, weight := 0, color := "black", fillColor := c })

/-- Equivalence of the modelled points_from_xy with the Point list
comprehension of P2 cell 61, for arbitrary coordinate sequences. -/
theorem points_from_xy_eq_comprehension (xs : List ℚ) :
    ∀ ys : List ℚ, points_from_xy xs ys = pointsComprehension xs ys := by
  induction xs with
  | nil => intro ys; cases ys <;> rfl
  | cons x xs ih =>
    intro ys
    cases ys with
    | nil => rfl
    | cons y ys =>
      simp only [points_from_xy, pointsComprehension, List.zip_cons_cons, List.map_cons]
      rw [ih ys]
      rfl

/-- Rows of the GeoDataFrame constructor: position i holds the original
row i with the geometry value appended. -/
theorem zipWith_append_geom_get (rows : List (List PyVal)) :
    ∀ (geoms : List (ShapelyPoint ℚ)) (i : Nat) (r : List PyVal) (g : ShapelyPoint ℚ),
      rows.get? i = some r → geoms.get? i = some g →
      (List.zipWith (fun r g => r ++ [PyVal.geom g]) rows geoms).get? i =
        some (r ++ [PyVal.geom g]) := by
  induction rows with
  | nil => intro geoms i r g h1 _; simp at h1
  | cons row rows ih =>
    intro geoms i r g h1 h2
    cases geoms with
    | nil => simp at h2
    | cons p geoms =>
      cases i with
      | zero =>
        rw [List.get?_cons_zero] at h1 h2
        cases h1
        cases h2
        rfl
      | succ i =>
        rw [List.get?_cons_succ] at h1 h2
        rw [List.zipWith_cons_cons, List.get?_cons_succ]
        exact ih geoms i r g h1 h2

/-- Claim C1, as stated, is false on the code: the operation table
contains the definition of style_function (P7 cell 44), a
repository-implemented operation in the choropleth-colour-binning
category, so not every operation is performed inside an external
library. -/
theorem C1_as_stated_false :
    styleFunctionDefOp ∈ allOps ∧
    styleFunctionDefOp.implementedBy = Lib.repoCode ∧
    ¬ (∀ op ∈ allOps, isExternalLib op.implementedBy = true) := by decide

/-- Claim C1 (amended): every operation of the notebooks is performed
inside an external library, with the single exception of the choropleth
colour binning of the GeoJson layer, which the repository-defined
style_function implements itself. -/
theorem C1_amended_delegation :
    (∀ op ∈ allOps, isExternalLib op.implementedBy = true ∨ op = styleFunctionDefOp) ∧
    styleFunctionDefOp.category = OpCategory.choroplethColorBinning ∧
    styleFunctionDefOp.implementedBy = Lib.repoCode := by decide

/-- Witness for C1 at the supermarket file read of P7 cell 11. -/
theorem C1_amended_witness :
    readSmktOp ∈ allOps ∧
    (isExternalLib readSmktOp.implementedBy = true ∨ readSmktOp = styleFunctionDefOp) :=
  ⟨by decide, C1_amended_delegation.1 readSmktOp (by decide)⟩

/-- Claim C2: no operation in either notebook catches, transforms,
suppresses, reports or raises an exception, and the only
repository-defined code, style_function, evaluates without error on
every IMD decile value 1..10. -/
theorem C2_no_error_handling :
    (∀ op ∈ allOps, op.catchesException = false ∧ op.raisesException = false) ∧
    (∀ d : Int, 1 ≤ d → d ≤ 10 → (style_function d).isSome = true) := by
  constructor
  · decide
  · intro d h1 h2
    interval_cases d <;> decide

/-- Witness for C2 at the IMD csv read of P7 cell 32 and decile 5. -/
theorem C2_witness :
    (readImdCsvOp ∈ allOps ∧ readImdCsvOp.catchesException = false) ∧
    (style_function 5).isSome = true :=
  ⟨⟨by decide, (C2_no_error_handling.1 readImdCsvOp (by decide)).1⟩,
   C2_no_error_handling.2 5 (by decide) (by decide)⟩

/-- Claim C3: the only file-writing operation in the repository is the
folium Map.save call of P7 cell 48, writing the single HTML file
../test_folium_map.html; no other operation writes a file. -/
theorem C3_single_html_output :
    allOps.filterMap (fun op => op.writesFile) = ["../test_folium_map.html"] ∧
    (∀ op ∈ allOps, op.writesFile ≠ none →
      op = saveMapOp ∧ op.implementedBy = Lib.folium ∧
      op.category = OpCategory.fileWriting ∧ op.fileFormat = some FileFormat.html) := by
  decide

/-- Witness for C3 at the Map.save operation itself. -/
theorem C3_witness :
    saveMapOp ∈ allOps ∧ saveMapOp.writesFile ≠ none ∧
    saveMapOp.implementedBy = Lib.folium :=
  ⟨by decide, by decide, (C3_single_html_output.2 saveMapOp (by decide) (by decide)).2.1⟩

/-- Claim C4, as stated, is false on the code: the cities csv of P2 cell
51 (and likewise the IMD csv of P7 cell 32) is read with pd.read_csv, not
with the generic vector-file reader gpd.read_file. -/
theorem C4_as_stated_false :
    readCitiesCsvOp ∈ allOps ∧
    readCitiesCsvOp.category = OpCategory.fileReading ∧
    readCitiesCsvOp.reader = some ReadFn.pd_read_csv ∧
    ¬ (∀ op ∈ allOps, op.category = OpCategory.fileReading →
        op.reader = some ReadFn.gpd_read_file) := by decide

/-- Claim C4 (amended): every input file is a zipped shapefile, a
GeoPackage or a csv; the zipped shapefile and the GeoPackages are read
with gpd.read_file, the csv files with pd.read_csv, and no input file is
read through any other mechanism. -/
theorem C4_amended_readers :
    ∀ op ∈ allOps, op.category = OpCategory.fileReading →
      (op.fileFormat = some FileFormat.zippedShapefile ∨
        op.fileFormat = some FileFormat.geoPackage ∨
        op.fileFormat = some FileFormat.csv) ∧
      (op.fileFormat = some FileFormat.csv ↔ op.reader = some ReadFn.pd_read_csv) ∧
      (op.fileFormat ≠ some FileFormat.csv ↔ op.reader = some ReadFn.gpd_read_file) := by
  decide

/-- Witness for C4 at the zipped-shapefile read of P2 cell 5. -/
theorem C4_amended_witness :
    readUsStatesOp ∈ allOps ∧ readUsStatesOp.category = OpCategory.fileReading ∧
    readUsStatesOp.reader = some ReadFn.gpd_read_file :=
  ⟨by decide, by decide,
   ((C4_amended_readers readUsStatesOp (by decide) (by decide)).2.2).mp (by decide)⟩

/-- Claim C5, as stated, is false on the code: locns (P7 cell 21) is a
plain Python list of coordinate tuples, neither a DataFrame or
GeoDataFrame nor a map or layer object of the mapping library. -/
theorem C5_as_stated_false :
    locnsEntity ∈ entities ∧ locnsEntity.kind = EntityKind.pyList ∧
    ¬ (∀ e ∈ entities,
        e.kind = EntityKind.dataFrame ∨ e.kind = EntityKind.geoDataFrame ∨
        e.kind = EntityKind.foliumMapOrLayer) := by decide

/-- Claim C5 (amended): every value the notebooks bind is an instance of
an external library type (pandas or geopandas tables and series, shapely
geometries, folium map and layer objects) or one of the two plain builtin
lists locns and colors; the repository defines no class or custom data
structure of its own. -/
theorem C5_amended_entities :
    (∀ e ∈ entities,
        isExternalLib e.ownedBy = true ∧
        (e.kind = EntityKind.pyList → (e = locnsEntity ∨ e = colorsEntity))) ∧
    repoClassDefs = [] := by decide

/-- Witness for C5 at the locns list of P7 cell 21. -/
theorem C5_amended_witness :
    locnsEntity ∈ entities ∧ (locnsEntity = locnsEntity ∨ locnsEntity = colorsEntity) :=
  ⟨by decide, (C5_amended_entities.1 locnsEntity (by decide)).2 (by decide)⟩

/-- Claim C6: no operation of the notebooks spawns a thread or a process
or registers an asynchronous callback; every operation is a synchronous
notebook-cell execution (the only callable handed to a library,
style_function, is invoked synchronously by folium during rendering). -/
theorem C6_single_threaded :
    ∀ op ∈ allOps, op.spawnsThreadOrProcess = false ∧
      op.registersAsyncCallback = false := by decide

/-- Witness for C6 at the style_function definition of P7 cell 44. -/
theorem C6_witness :
    styleFunctionDefOp ∈ allOps ∧ styleFunctionDefOp.spawnsThreadOrProcess = false :=
  ⟨by decide, (C6_single_threaded styleFunctionDefOp (by decide)).1⟩

/-- Claim C7: for equal-length coordinate sequences, points_from_xy
yields the same Point sequence as the list comprehension of P2 cell 61,
and the GeoDataFrame built from either geometry argument is the same. -/
theorem C7_points_from_xy_refines (xs ys : List ℚ) (_h : xs.length = ys.length) :
    points_from_xy xs ys = pointsComprehension xs ys ∧
    ∀ df : DataFrame, gpd_GeoDataFrame df (points_from_xy xs ys) =
      gpd_GeoDataFrame df (pointsComprehension xs ys) := by
  refine ⟨points_from_xy_eq_comprehension xs ys, fun df => ?_⟩
  rw [points_from_xy_eq_comprehension xs ys]

/-- Witness for C7 at the coordinate lists [1, 2] and [3, 4]. -/
theorem C7_refines_witness :
    ([(1 : ℚ), 2]).length = ([(3 : ℚ), 4]).length ∧
    points_from_xy [(1 : ℚ), 2] [(3 : ℚ), 4] =
      pointsComprehension [(1 : ℚ), 2] [(3 : ℚ), 4] :=
  ⟨rfl, (C7_points_from_xy_refines [1, 2] [3, 4] rfl).1⟩

/-- Claim C8: for every integer decile d with 1 <= d <= 10 the
repository's style_function returns the style dict whose fillColor is
colors[d - 1], an in-bounds index of the ten-element colour list, and for
d = 0 it does not raise but returns the last colour of the list through
Python negative indexing. -/
theorem C8_style_function_safety :
    (∀ d : Int, 1 ≤ d → d ≤ 10 →
        (d - 1).toNat < colors.length ∧
        style_function d = (colors.get? (d - 1).toNat).map
          (fun c => { fillOpacity := 7/10, weight := 0, color := "black",
                      fillColor := c })) ∧
    style_function 0 =
      some { fillOpacity := 7/10, weight := 0, color := "black",
             fillColor := "#6a3d9a" } ∧
    colors.getLast? = some "#6a3d9a" := by
  refine ⟨?_, rfl, rfl⟩
  intro d h1 h2
  interval_cases d <;> exact ⟨by decide, rfl⟩

/-- Witness for C8 at decile 3. -/
theorem C8_safety_witness :
    (1 : Int) ≤ 3 ∧ ((3 : Int) - 1).toNat < colors.length ∧
    style_function 3 = (colors.get? ((3 : Int) - 1).toNat).map
      (fun c => { fillOpacity := 7/10, weight := 0, color := "black",
                  fillColor := c }) :=
  ⟨by decide, (C8_style_function_safety.1 3 (by decide) (by decide)).1,
   (C8_style_function_safety.1 3 (by decide) (by decide)).2⟩

/-- Claim C9: the GeoDataFrame constructor keeps the column list and
appends exactly one new column named geometry, preserves every row with
its geometry value appended, and turns an (n, k) shape into (n, k + 1);
in particular (7343, 38) becomes (7343, 39). -/
theorem C9_geodataframe_frame (df : DataFrame) (geoms : List (ShapelyPoint ℚ))
    (h : geoms.length = df.rows.length) :
    (gpd_GeoDataFrame df geoms).cols = df.cols ++ ["geometry"] ∧
    (∀ i r g, df.rows.get? i = some r → geoms.get? i = some g →
        (gpd_GeoDataFrame df geoms).rows.get? i = some (r ++ [PyVal.geom g])) ∧
    (gpd_GeoDataFrame df geoms).shape = (df.shape.1, df.shape.2 + 1) := by
  refine ⟨rfl, ?_, ?_⟩
  · intro i r g h1 h2
    exact zipWith_append_geom_get df.rows geoms i r g h1 h2
  · simp [gpd_GeoDataFrame, DataFrame.shape, List.length_zipWith, h,
      List.length_append, min_self]

/-- A DataFrame with the shape (7343, 38) of the cities example of P2. -/
def citiesDF : DataFrame :=
  { cols := List.replicate 38 "attr",
    rows := List.replicate 7343 (List.replicate 38 (PyVal.num 0)) }

/-- A geometry sequence matching citiesDF row for row. -/
def citiesGeoms : List (ShapelyPoint ℚ) :=
  List.replicate 7343 (ShapelyPoint.mk 0 0)

/-- Witness for C9 at the (7343, 38) cities example. -/
theorem C9_frame_witness :
    citiesDF.shape = (7343, 38) ∧
    (gpd_GeoDataFrame citiesDF citiesGeoms).shape = (7343, 39) := by
  have h := C9_geodataframe_frame citiesDF citiesGeoms
    (by simp only [citiesDF, citiesGeoms, List.length_replicate])
  refine ⟨by simp only [citiesDF, DataFrame.shape, List.length_replicate], ?_⟩
  rw [h.2.2]
  simp only [citiesDF, DataFrame.shape, List.length_replicate]

end GeoNB
